import Mathlib

/-!
# bookhunter: `telegram/channel.go`

A shallow embedding of the channel resolution code of `src/telegram/channel.go`
(`channelInfo`, `privateChannelInfo`, `publicChannelInfo`, `queryLatestMsgID`)
and theorems about it.

Conventions of the embedding.

* Go `int64` and `int` values are Lean `Int`. The code performs no arithmetic
  on them (it only copies, compares with `0` and converts `int` to `int64`),
  so no wrap-around can occur.
* A Go `error` is `Option GoError`, `none` being `nil`.
* A Go `(value, error)` result is a Lean tuple, in the source's order.
* The Telegram client is the only source of effects. Every function threads the
  list of RPC calls issued so far (oldest first); the client's answers may
  depend on that list, which covers every deterministic client, stateful or
  not. The context argument `ctx` is only handed to the client and is omitted.
* The union types of the `tg` package are inductive types holding the fields
  `channel.go` reads; an interface value that is `nil` is `none`. A response
  decoded by the client holds no `nil` pointer inside an interface value that
  is not `nil`, so a type assertion that succeeds yields a struct.
* `strconv.ParseInt` belongs to the Go standard library; it is embedded from
  its source, for base 10 and bit size 64, on the characters of the string (a
  character outside ASCII is, like each of its bytes, not a digit).
-/

namespace Telegram

/-! ## Errors -/

/-- A Go `error` value: either one handed back by an RPC call of the client,
or one built in `channel.go` by `errors.New` or `fmt.Errorf` with the given
text. -/
inductive GoError where
  | rpc (msg : String)
  | text (msg : String)
  deriving DecidableEq, Repr

/-- The `Error()` method: the text of an error. -/
def GoError.Error : GoError → String
  | .rpc msg => msg
  | .text msg => msg

/-- Go `errors.New`. -/
def errorsNew (msg : String) : GoError := .text msg

/-- Go `fmt.Errorf(format, arg)` for a format that ends in its single `%s`:
`before` is the format up to the verb. -/
def fmtErrorf (before : String) (arg : String) : GoError := .text (before ++ arg)

/-! ## The `tg` types read by `channel.go` -/

/-- The union `tg.UserClass`. -/
inductive UserClass where
  | UserEmpty (ID : Int)
  | User (ID : Int) (AccessHash : Int)
  deriving DecidableEq, Repr

/-- The union `tg.ContactsContactsClass`; of `tg.ContactsContacts` only the
`Users` field is read. -/
inductive ContactsContactsClass where
  | ContactsContactsNotModified
  | ContactsContacts (Users : List UserClass)
  deriving DecidableEq, Repr

/-- The union `tg.ChatClass`. -/
inductive ChatClass where
  | ChatEmpty (ID : Int)
  | Chat (ID : Int)
  | ChatForbidden (ID : Int)
  | Channel (ID : Int) (AccessHash : Int)
  | ChannelForbidden (ID : Int) (AccessHash : Int)
  deriving DecidableEq, Repr

/-- The struct `tg.ContactsResolvedPeer`; only the `Chats` field is read. -/
structure ContactsResolvedPeer where
  Chats : List ChatClass
  deriving DecidableEq, Repr

/-- The union `tg.MessageClass`; every variant has an identifier. -/
inductive MessageClass where
  | MessageEmpty (ID : Int)
  | Message (ID : Int)
  | MessageService (ID : Int)
  deriving DecidableEq, Repr

/-- The method `GetID` of `tg.MessageClass`. -/
def MessageClass.GetID : MessageClass → Int
  | .MessageEmpty ID => ID
  | .Message ID => ID
  | .MessageService ID => ID

/-- The union `tg.MessagesMessagesClass`; an entry of a message list is `none`
when the interface value is `nil`. -/
inductive MessagesMessagesClass where
  | MessagesMessages (Messages : List (Option MessageClass))
  | MessagesMessagesSlice (Messages : List (Option MessageClass))
  | MessagesChannelMessages (Messages : List (Option MessageClass))
  | MessagesMessagesNotModified (Count : Int)
  deriving DecidableEq, Repr

/-- The union `tg.InputPeerClass`. -/
inductive InputPeerClass where
  | InputPeerEmpty
  | InputPeerSelf
  | InputPeerChat (ChatID : Int)
  | InputPeerUser (UserID : Int) (AccessHash : Int)
  | InputPeerChannel (ChannelID : Int) (AccessHash : Int)
  deriving DecidableEq, Repr

/-- The union `tg.MessagesFilterClass` (the variants without fields that the
development needs to tell the empty filter from another one). -/
inductive MessagesFilterClass where
  | InputMessagesFilterEmpty
  | InputMessagesFilterPhotos
  | InputMessagesFilterVideo
  | InputMessagesFilterDocument
  deriving DecidableEq, Repr

/-- The struct `tg.MessagesSearchRequest`, with the fields `queryLatestMsgID`
sets; the others keep their zero value. -/
structure MessagesSearchRequest where
  Peer : InputPeerClass
  Filter : MessagesFilterClass
  Q : String
  OffsetID : Int
  Limit : Int
  deriving DecidableEq, Repr

/-! ## The client -/

/-- One RPC call issued through `client.API()`. -/
inductive Call where
  | ContactsGetContacts (hash : Int)
  | ContactsResolveUsername (username : String)
  | MessagesSearch (request : MessagesSearchRequest)
  deriving DecidableEq, Repr

/-- The three RPC methods of `client.API()` that `channel.go` calls. Each gets
the calls issued before it and its argument, and answers with a response or an
error. -/
structure Client where
  ContactsGetContacts : List Call → Int → Except GoError ContactsContactsClass
  ContactsResolveUsername : List Call → String → Except GoError ContactsResolvedPeer
  MessagesSearch : List Call → MessagesSearchRequest → Except GoError MessagesMessagesClass

/-! ## `strconv.ParseInt(s, 10, 64)` -/

/-- The error kinds of `strconv.NumError`. -/
inductive NumError where
  | ErrSyntax
  | ErrRange
  deriving DecidableEq, Repr

/-- The digit loop of Go `strconv.ParseUint` for base 10 and bit size 64, on
the bytes left to read and the value `n` read so far. A byte that is not a
decimal digit is a syntax error; a value that leaves the `uint64` range is a
range error. -/
def ParseUint.loop : List Char → Nat → Except NumError Nat
  | [], n => .ok n
  | c :: rest, n =>
    if 48 ≤ c.toNat ∧ c.toNat ≤ 57 then
      if n ≥ (2 ^ 64 - 1) / 10 + 1 then .error .ErrRange
      else if n * 10 + (c.toNat - 48) > 2 ^ 64 - 1 then .error .ErrRange
      else ParseUint.loop rest (n * 10 + (c.toNat - 48))
    else .error .ErrSyntax

/-- Go `strconv.ParseUint(s, 10, 64)`. -/
def ParseUint (s : List Char) : Except NumError Nat :=
  if s = [] then .error .ErrSyntax else ParseUint.loop s 0

/-- Go `strconv.ParseInt(s, 10, 64)`: an optional sign, then `ParseUint`, then
the check against the `int64` range. -/
def ParseInt (s : String) : Except NumError Int :=
  match s.data with
  | [] => .error .ErrSyntax
  | c :: rest =>
    let neg := c = '-'
    let body := if c = '+' ∨ c = '-' then rest else c :: rest
    match ParseUint body with
    | .error .ErrSyntax => .error .ErrSyntax
    | .error .ErrRange => .error .ErrRange
    | .ok un =>
      if ¬ neg ∧ un ≥ 2 ^ 63 then .error .ErrRange
      else if neg ∧ un > 2 ^ 63 then .error .ErrRange
      else .ok (if neg then - (un : Int) else (un : Int))

/-! ## `channel.go` -/

/-- The result struct `tgChannelInfo`. -/
structure tgChannelInfo where
  id : Int
  accessHash : Int
  lastMsgID : Int
  deriving DecidableEq, Repr

/-- The loop of `privateChannelInfo` over `contacts.Users`: the access hash of
the first entry that is a `*tg.User`, if there is one. -/
def privateChannelInfo.loop : List UserClass → Option Int
  | [] => none
  | .User _ AccessHash :: _ => some AccessHash
  | .UserEmpty _ :: rest => privateChannelInfo.loop rest

/-- Go `privateChannelInfo`: returns `(accessHash, err)` and the calls issued. -/
def privateChannelInfo (client : Client) (calls : List Call) (channelID : Int) :
    Int × Option GoError × List Call :=
  let calls1 := calls ++ [Call.ContactsGetContacts channelID]
  match client.ContactsGetContacts calls channelID with
  | .error err => (0, some err, calls1)
  | .ok (.ContactsContacts Users) =>
    match privateChannelInfo.loop Users with
    | some accessHash => (accessHash, none, calls1)
    | none => (0, some (errorsNew "couldn't find access hash"), calls1)
  | .ok .ContactsContactsNotModified =>
    (0, some (errorsNew "couldn't find access hash"), calls1)

/-- The loop of `publicChannelInfo` over `username.Chats`: identifier and
access hash of the first entry that is a `*tg.Channel`, if there is one. -/
def publicChannelInfo.loop : List ChatClass → Option (Int × Int)
  | [] => none
  | .Channel ID AccessHash :: _ => some (ID, AccessHash)
  | .ChatEmpty _ :: rest => publicChannelInfo.loop rest
  | .Chat _ :: rest => publicChannelInfo.loop rest
  | .ChatForbidden _ :: rest => publicChannelInfo.loop rest
  | .ChannelForbidden _ _ :: rest => publicChannelInfo.loop rest

/-- Go `publicChannelInfo`: returns `(channelID, accessHash, err)` and the
calls issued. -/
def publicChannelInfo (client : Client) (calls : List Call) (channelName : String) :
    Int × Int × Option GoError × List Call :=
  let calls1 := calls ++ [Call.ContactsResolveUsername channelName]
  match client.ContactsResolveUsername calls channelName with
  | .error err => (0, 0, some err, calls1)
  | .ok username =>
    if username.Chats.length = 0 then
      (0, 0, some (fmtErrorf "you are not belong to channel: " channelName), calls1)
    else
      match publicChannelInfo.loop username.Chats with
      | some (channelID, accessHash) => (channelID, accessHash, none, calls1)
      | none =>
        (0, 0, some (fmtErrorf "couldn't find channel id and hash for channel: " channelName),
          calls1)

/-- The loop of `queryLatestMsgID` over `channelInfo.Messages`, started with
`last`: the identifier of the first entry that is not `nil`, else `last`. -/
def queryLatestMsgID.loop : List (Option MessageClass) → Int → Int
  | [], last => last
  | some msg :: _, _ => msg.GetID
  | none :: rest, last => queryLatestMsgID.loop rest last

/-- The request `queryLatestMsgID` builds. -/
def queryLatestMsgID.request (channelID accessHash : Int) : MessagesSearchRequest :=
  { Peer := .InputPeerChannel channelID accessHash
    Filter := .InputMessagesFilterEmpty
    Q := ""
    OffsetID := -1
    Limit := 1 }

/-- Go `queryLatestMsgID`: returns `(id, err)` and the calls issued. When the
response is not a `*tg.MessagesChannelMessages` the source returns `0, err`
with the `err` of the RPC call, which is `nil` at that point. -/
def queryLatestMsgID (client : Client) (calls : List Call) (channelID accessHash : Int) :
    Int × Option GoError × List Call :=
  let request := queryLatestMsgID.request channelID accessHash
  let calls1 := calls ++ [Call.MessagesSearch request]
  match client.MessagesSearch calls request with
  | .error err => (0, some err, calls1)
  | .ok (.MessagesChannelMessages Messages) =>
    let last := queryLatestMsgID.loop Messages (-1)
    if last ≤ 0 then (0, some (errorsNew "couldn't find last message id"), calls1)
    else (last, none, calls1)
  | .ok _ => (0, none, calls1)

/-- The identity stage of `channelInfo` (lines 19 to 24): the private path when
`config.ChannelID` parses as an integer, the public path otherwise. Returns
`(channelID, accessHash, err)` and the calls issued. -/
def channelInfo.identity (client : Client) (calls : List Call) (ChannelID : String) :
    Int × Int × Option GoError × List Call :=
  match ParseInt ChannelID with
  | .ok id =>
    match privateChannelInfo client calls id with
    | (accessHash, err, calls1) => (id, accessHash, err, calls1)
  | .error _ => publicChannelInfo client calls ChannelID

/-- Go `channelInfo`, on the field `config.ChannelID` of its configuration:
returns `(info, err)`, `info` being `none` for a `nil` pointer, and the calls
issued. -/
def channelInfo (client : Client) (calls : List Call) (ChannelID : String) :
    Option tgChannelInfo × Option GoError × List Call :=
  match channelInfo.identity client calls ChannelID with
  | (_, _, some err, calls1) => (none, some err, calls1)
  | (channelID, accessHash, none, calls1) =>
    match queryLatestMsgID client calls1 channelID accessHash with
    | (_, some err, calls2) => (none, some err, calls2)
    | (last, none, calls2) =>
      (some { id := channelID, accessHash := accessHash, lastMsgID := last }, none, calls2)

/-! ## Vocabulary of the statements -/

/-- The type test `u.(*tg.User)`. -/
def UserClass.isUser : UserClass → Bool
  | .User _ _ => true
  | .UserEmpty _ => false

/-- The type test `chat.(*tg.Channel)`. -/
def ChatClass.isChannel : ChatClass → Bool
  | .Channel _ _ => true
  | _ => false

/-- The text `sub` occurs in the text `msg`. -/
def occursIn (sub msg : String) : Prop := sub.data <:+: msg.data

instance (sub msg : String) : Decidable (occursIn sub msg) := by
  unfold occursIn; infer_instance

/-- The call is a message search. -/
def Call.isMessagesSearch : Call → Bool
  | .MessagesSearch _ => true
  | _ => false

/-! ## Clients used at concrete inputs -/

/-- A client with fixed answers, whatever was called before. -/
def fixedClient (contacts : Except GoError ContactsContactsClass)
    (resolved : Except GoError ContactsResolvedPeer)
    (search : Except GoError MessagesMessagesClass) : Client :=
  { ContactsGetContacts := fun _ _ => contacts
    ContactsResolveUsername := fun _ _ => resolved
    MessagesSearch := fun _ _ => search }

/-- The client of the examples: one contact `{123456, 987}`, one channel
`{42, 24}` behind every handle, and a channel page with the message `777`. -/
def exampleClient : Client :=
  fixedClient (.ok (.ContactsContacts [.User 123456 987]))
    (.ok { Chats := [.Channel 42 24] })
    (.ok (.MessagesChannelMessages [some (.Message 777)]))

/-- A client that knows nothing: no contact, no chat behind a handle, an empty
channel page. -/
def ghostClient : Client :=
  fixedClient (.ok (.ContactsContacts [])) (.ok { Chats := [] })
    (.ok (.MessagesChannelMessages []))

/-- A client whose every call fails with the same RPC error. -/
def downClient : Client :=
  fixedClient (.error (.rpc "rpc error: TIMEOUT")) (.error (.rpc "rpc error: TIMEOUT"))
    (.error (.rpc "rpc error: TIMEOUT"))

/-- The client of the examples, with the search answered by `search`. -/
def searchClient (search : Except GoError MessagesMessagesClass) : Client :=
  fixedClient (.ok (.ContactsContacts [.User 123456 987]))
    (.ok { Chats := [.Channel 42 24] }) search

/-- A client whose contacts lookup answers with the given user list. -/
def contactsClient (users : List UserClass) : Client :=
  fixedClient (.ok (.ContactsContacts users)) (.ok { Chats := [] })
    (.ok (.MessagesChannelMessages []))

/-- A client whose handle resolution answers with the given chat list. -/
def chatsClient (chats : List ChatClass) : Client :=
  fixedClient (.ok (.ContactsContacts [])) (.ok { Chats := chats })
    (.ok (.MessagesChannelMessages []))

/-! ## Lemmas on the loops -/

theorem privateChannelInfo_loop_append (pre rest : List UserClass)
    (hpre : ∀ u ∈ pre, u.isUser = false) :
    privateChannelInfo.loop (pre ++ rest) = privateChannelInfo.loop rest := by
  induction pre with
  | nil => rfl
  | cons u pre ih =>
    have hu := hpre u (List.mem_cons_self _ _)
    have ih1 := ih (fun v hv => hpre v (List.mem_cons_of_mem _ hv))
    cases u with
    | UserEmpty ID => simpa [privateChannelInfo.loop] using ih1
    | User ID AccessHash => simp [UserClass.isUser] at hu

theorem privateChannelInfo_loop_none (users : List UserClass)
    (hall : ∀ u ∈ users, u.isUser = false) : privateChannelInfo.loop users = none := by
  have h := privateChannelInfo_loop_append users [] hall
  simpa [privateChannelInfo.loop] using h

theorem privateChannelInfo_loop_some (users : List UserClass) (accessHash : Int)
    (h : privateChannelInfo.loop users = some accessHash) :
    ∃ pre ID post, users = pre ++ UserClass.User ID accessHash :: post ∧
      ∀ u ∈ pre, u.isUser = false := by
  induction users with
  | nil => simp [privateChannelInfo.loop] at h
  | cons u users ih =>
    cases u with
    | User ID AccessHash =>
      simp only [privateChannelInfo.loop, Option.some.injEq] at h
      exact ⟨[], ID, users, by simp [h], by simp⟩
    | UserEmpty ID =>
      simp only [privateChannelInfo.loop] at h
      obtain ⟨pre, ID1, post, heq, hpre⟩ := ih h
      refine ⟨UserClass.UserEmpty ID :: pre, ID1, post, by simp [heq], ?_⟩
      intro v hv
      rcases List.mem_cons.mp hv with hv | hv
      · subst hv; rfl
      · exact hpre v hv

theorem publicChannelInfo_loop_append (pre rest : List ChatClass)
    (hpre : ∀ c ∈ pre, c.isChannel = false) :
    publicChannelInfo.loop (pre ++ rest) = publicChannelInfo.loop rest := by
  induction pre with
  | nil => rfl
  | cons c pre ih =>
    have hc := hpre c (List.mem_cons_self _ _)
    have ih1 := ih (fun v hv => hpre v (List.mem_cons_of_mem _ hv))
    cases c <;> first
      | (simpa [publicChannelInfo.loop] using ih1)
      | (simp [ChatClass.isChannel] at hc)

theorem publicChannelInfo_loop_none (chats : List ChatClass)
    (hall : ∀ c ∈ chats, c.isChannel = false) : publicChannelInfo.loop chats = none := by
  have h := publicChannelInfo_loop_append chats [] hall
  simpa [publicChannelInfo.loop] using h

theorem queryLatestMsgID_loop_append (nulls rest : List (Option MessageClass)) (last : Int)
    (hnulls : ∀ x ∈ nulls, x = none) :
    queryLatestMsgID.loop (nulls ++ rest) last = queryLatestMsgID.loop rest last := by
  induction nulls with
  | nil => rfl
  | cons x nulls ih =>
    have hx := hnulls x (List.mem_cons_self _ _)
    have ih1 := ih (fun v hv => hnulls v (List.mem_cons_of_mem _ hv))
    subst hx
    simpa [queryLatestMsgID.loop] using ih1

theorem queryLatestMsgID_loop_all_null (ms : List (Option MessageClass)) (last : Int)
    (hall : ∀ x ∈ ms, x = none) : queryLatestMsgID.loop ms last = last := by
  have h := queryLatestMsgID_loop_append ms [] last hall
  simpa [queryLatestMsgID.loop] using h

/-! ## Lemmas on `ParseInt` and on the stages -/

theorem ParseInt_range (s : String) (n : Int) (h : ParseInt s = .ok n) :
    -(2 ^ 63 : Int) ≤ n ∧ n < 2 ^ 63 := by
  unfold ParseInt at h
  split at h
  · simp at h
  · rename_i c rest _
    simp only at h
    split at h
    · simp at h
    · simp at h
    · rename_i un _
      split_ifs at h with h1 h2 h3
      · simp only [Except.ok.injEq] at h
        subst h
        have h4 : un ≤ 2 ^ 63 := by
          by_contra hc
          exact h2 ⟨h3, by omega⟩
        constructor <;> push_cast <;> omega
      · simp only [Except.ok.injEq] at h
        subst h
        have h4 : un < 2 ^ 63 := by
          by_contra hc
          exact h1 ⟨h3, by omega⟩
        constructor <;> push_cast <;> omega

theorem privateChannelInfo_calls (client : Client) (calls : List Call) (channelID : Int) :
    (privateChannelInfo client calls channelID).2.2 =
      calls ++ [Call.ContactsGetContacts channelID] := by
  unfold privateChannelInfo
  split
  · rfl
  · split <;> rfl
  · rfl

theorem publicChannelInfo_calls (client : Client) (calls : List Call) (channelName : String) :
    (publicChannelInfo client calls channelName).2.2.2 =
      calls ++ [Call.ContactsResolveUsername channelName] := by
  unfold publicChannelInfo
  split
  · rfl
  · split
    · rfl
    · split <;> rfl

theorem queryLatestMsgID_calls (client : Client) (calls : List Call)
    (channelID accessHash : Int) :
    (queryLatestMsgID client calls channelID accessHash).2.2 =
      calls ++ [Call.MessagesSearch (queryLatestMsgID.request channelID accessHash)] := by
  unfold queryLatestMsgID
  dsimp only
  split
  · rfl
  · split <;> rfl
  · rfl

theorem channelInfo.identity_private (client : Client) (calls : List Call) (s : String)
    (n : Int) (h : ParseInt s = .ok n) :
    channelInfo.identity client calls s = (n, privateChannelInfo client calls n) := by
  unfold channelInfo.identity
  rw [h]

theorem channelInfo.identity_public (client : Client) (calls : List Call) (s : String)
    (h : ∀ n, ParseInt s ≠ .ok n) :
    channelInfo.identity client calls s = publicChannelInfo client calls s := by
  unfold channelInfo.identity
  split
  · rename_i id hid
    exact absurd hid (h id)
  · rfl

/-- Unfolding of `channelInfo` along the outcome of its identity stage. -/
theorem channelInfo_of_identity_error (client : Client) (calls : List Call) (s : String)
    (channelID accessHash : Int) (err : GoError) (calls1 : List Call)
    (h : channelInfo.identity client calls s = (channelID, accessHash, some err, calls1)) :
    channelInfo client calls s = (none, some err, calls1) := by
  unfold channelInfo
  rw [h]

theorem channelInfo_of_identity_ok (client : Client) (calls : List Call) (s : String)
    (channelID accessHash : Int) (calls1 : List Call)
    (h : channelInfo.identity client calls s = (channelID, accessHash, none, calls1)) :
    channelInfo client calls s =
      match queryLatestMsgID client calls1 channelID accessHash with
      | (_, some err, calls2) => (none, some err, calls2)
      | (last, none, calls2) =>
        (some { id := channelID, accessHash := accessHash, lastMsgID := last }, none, calls2) := by
  unfold channelInfo
  rw [h]

/-- The three ways `channelInfo` can end, in terms of its two stages. -/
theorem channelInfo_cases (client : Client) (calls : List Call) (s : String) :
    (∃ e, (channelInfo.identity client calls s).2.2.1 = some e ∧
      channelInfo client calls s = (none, some e, (channelInfo.identity client calls s).2.2.2)) ∨
    ((channelInfo.identity client calls s).2.2.1 = none ∧
      (channelInfo client calls s).2.2 =
        (channelInfo.identity client calls s).2.2.2 ++
          [Call.MessagesSearch (queryLatestMsgID.request (channelInfo.identity client calls s).1
            (channelInfo.identity client calls s).2.1)] ∧
      ((∃ e, (queryLatestMsgID client (channelInfo.identity client calls s).2.2.2
            (channelInfo.identity client calls s).1
            (channelInfo.identity client calls s).2.1).2.1 = some e ∧
          (channelInfo client calls s).1 = none ∧ (channelInfo client calls s).2.1 = some e) ∨
        ((queryLatestMsgID client (channelInfo.identity client calls s).2.2.2
            (channelInfo.identity client calls s).1
            (channelInfo.identity client calls s).2.1).2.1 = none ∧
          (channelInfo client calls s).1 =
            some { id := (channelInfo.identity client calls s).1
                   accessHash := (channelInfo.identity client calls s).2.1
                   lastMsgID := (queryLatestMsgID client
                     (channelInfo.identity client calls s).2.2.2
                     (channelInfo.identity client calls s).1
                     (channelInfo.identity client calls s).2.1).1 } ∧
          (channelInfo client calls s).2.1 = none))) := by
  rcases hi : channelInfo.identity client calls s with ⟨channelID, accessHash, err, calls1⟩
  cases err with
  | some e =>
    left
    exact ⟨e, rfl, channelInfo_of_identity_error client calls s channelID accessHash e calls1 hi⟩
  | none =>
    right
    have hc := channelInfo_of_identity_ok client calls s channelID accessHash calls1 hi
    have hq := queryLatestMsgID_calls client calls1 channelID accessHash
    rcases hr : queryLatestMsgID client calls1 channelID accessHash with ⟨last, qerr, calls2⟩
    rw [hr] at hc hq
    simp only at hq
    subst hq
    cases qerr with
    | some e =>
      simp only at hc
      refine ⟨rfl, by rw [hc], Or.inl ⟨e, rfl, by rw [hc], by rw [hc]⟩⟩
    | none =>
      simp only at hc
      refine ⟨rfl, by rw [hc], Or.inr ⟨rfl, by rw [hc], by rw [hc]⟩⟩

theorem occursIn_append (before arg : String) : occursIn arg (before ++ arg) :=
  ⟨before.data, [], by simp [String.data_append]⟩

/-- The private path on a contacts list whose first user entry is known. -/
theorem privateChannelInfo_of_first_user (client : Client) (calls : List Call) (n : Int)
    (pre post : List UserClass) (ID AccessHash : Int)
    (hresp : client.ContactsGetContacts calls n =
      .ok (.ContactsContacts (pre ++ UserClass.User ID AccessHash :: post)))
    (hpre : ∀ u ∈ pre, u.isUser = false) :
    privateChannelInfo client calls n =
      (AccessHash, none, calls ++ [Call.ContactsGetContacts n]) := by
  unfold privateChannelInfo
  rw [hresp]
  simp only [privateChannelInfo_loop_append pre _ hpre, privateChannelInfo.loop]

theorem publicChannelInfo_loop_some (chats : List ChatClass) (ID AccessHash : Int)
    (h : publicChannelInfo.loop chats = some (ID, AccessHash)) :
    ∃ pre post, chats = pre ++ ChatClass.Channel ID AccessHash :: post ∧
      ∀ c ∈ pre, c.isChannel = false := by
  induction chats with
  | nil => simp [publicChannelInfo.loop] at h
  | cons c chats ih =>
    have step : c.isChannel = false → publicChannelInfo.loop chats = some (ID, AccessHash) →
        ∃ pre post, c :: chats = pre ++ ChatClass.Channel ID AccessHash :: post ∧
          ∀ d ∈ pre, d.isChannel = false := by
      intro hc hrest
      obtain ⟨pre, post, heq, hpre⟩ := ih hrest
      refine ⟨c :: pre, post, by simp [heq], ?_⟩
      intro v hv
      rcases List.mem_cons.mp hv with hv | hv
      · subst hv; exact hc
      · exact hpre v hv
    cases c with
    | Channel ID1 AccessHash1 =>
      simp only [publicChannelInfo.loop, Option.some.injEq, Prod.mk.injEq] at h
      obtain ⟨h1, h2⟩ := h
      subst h1 h2
      exact ⟨[], chats, by simp, by simp⟩
    | ChatEmpty ID1 => exact step rfl (by simpa [publicChannelInfo.loop] using h)
    | Chat ID1 => exact step rfl (by simpa [publicChannelInfo.loop] using h)
    | ChatForbidden ID1 => exact step rfl (by simpa [publicChannelInfo.loop] using h)
    | ChannelForbidden ID1 AccessHash1 =>
      exact step rfl (by simpa [publicChannelInfo.loop] using h)

/-- The public path when it ends without an error. -/
theorem publicChannelInfo_of_ok (client : Client) (calls : List Call) (h : String)
    (hok : (publicChannelInfo client calls h).2.2.1 = none) :
    ∃ pre post,
      client.ContactsResolveUsername calls h =
        .ok (ContactsResolvedPeer.mk
          (pre ++ ChatClass.Channel (publicChannelInfo client calls h).1
            (publicChannelInfo client calls h).2.1 :: post)) ∧
      ∀ c ∈ pre, c.isChannel = false := by
  unfold publicChannelInfo at hok ⊢
  split at hok
  · simp at hok
  · rename_i username hresp
    rw [hresp]
    split at hok
    · simp at hok
    · rename_i hlen
      split at hok
      · rename_i channelID accessHash hloop
        obtain ⟨pre, post, heq, hpre⟩ :=
          publicChannelInfo_loop_some username.Chats channelID accessHash hloop
        refine ⟨pre, post, ?_, hpre⟩
        simp only [hlen, if_false, hloop]
        rw [← heq]
      · simp at hok

/-- The identity stage issues one call, which is not a message search. -/
theorem channelInfo.identity_calls (client : Client) (calls : List Call) (s : String) :
    ∃ c, c.isMessagesSearch = false ∧
      (channelInfo.identity client calls s).2.2.2 = calls ++ [c] := by
  unfold channelInfo.identity
  split
  · rename_i id _
    exact ⟨Call.ContactsGetContacts id, rfl, privateChannelInfo_calls client calls id⟩
  · exact ⟨Call.ContactsResolveUsername s, rfl, publicChannelInfo_calls client calls s⟩

/-! ## The claims -/

/-- C1. Dispatch of `channelInfo` is decided by the format of the reference
alone. When `strconv.ParseInt(s, 10, 64)` succeeds with `n` (an `int64`), the
identity stage is `privateChannelInfo` called with `n`: the first call issued is
the contacts lookup for `n`, no handle resolution is issued (any later call is
a message search on the channel peer with identifier `n`), and the identifier
of a returned result is `n`. For every other `s` the identity stage is
`publicChannelInfo` called with `s` unchanged: the first call issued is the
handle resolution of `s` and no contacts lookup is issued. The empty string,
a handle that is not numeric and numeric literals outside the `int64` range do
not parse. -/
theorem channelInfo_dispatch_by_format (client : Client) (calls : List Call) (s : String) :
    (∀ n, ParseInt s = .ok n →
      (-(2 ^ 63 : Int) ≤ n ∧ n < 2 ^ 63) ∧
      channelInfo.identity client calls s = (n, privateChannelInfo client calls n) ∧
      (∃ rest, (channelInfo client calls s).2.2 = calls ++ Call.ContactsGetContacts n :: rest ∧
        ∀ c ∈ rest, ∃ accessHash,
          c = Call.MessagesSearch (queryLatestMsgID.request n accessHash)) ∧
      ∀ info, (channelInfo client calls s).1 = some info → info.id = n) ∧
    ((∀ n, ParseInt s ≠ .ok n) →
      channelInfo.identity client calls s = publicChannelInfo client calls s ∧
      ∃ rest, (channelInfo client calls s).2.2 =
          calls ++ Call.ContactsResolveUsername s :: rest ∧
        ∀ c ∈ rest, c.isMessagesSearch = true) ∧
    (∀ n, ParseInt "" ≠ .ok n) ∧
    (∀ n, ParseInt "examplechannel" ≠ .ok n) ∧
    (∀ n, ParseInt "9223372036854775808" ≠ .ok n) ∧
    (∀ n, ParseInt "-9223372036854775809" ≠ .ok n) := by
  refine ⟨?_, ?_, ?_, ?_, ?_, ?_⟩
  · intro n hn
    have hi := channelInfo.identity_private client calls s n hn
    have hp := privateChannelInfo_calls client calls n
    have hcases := channelInfo_cases client calls s
    rw [hi] at hcases
    simp only [hp] at hcases
    refine ⟨ParseInt_range s n hn, hi, ?_, ?_⟩
    · rcases hcases with ⟨e, _, hc⟩ | ⟨_, hc, _⟩
      · exact ⟨[], by rw [hc], by simp⟩
      · refine ⟨[Call.MessagesSearch (queryLatestMsgID.request n
          (privateChannelInfo client calls n).1)], by rw [hc]; simp, ?_⟩
        intro c hc1
        exact ⟨_, List.mem_singleton.mp hc1⟩
    · intro info hinfo
      rcases hcases with ⟨e, _, hc⟩ | ⟨_, _, ⟨e, _, hnone, _⟩ | ⟨_, hsome, _⟩⟩
      · rw [hc] at hinfo; simp at hinfo
      · rw [hnone] at hinfo; simp at hinfo
      · rw [hsome] at hinfo
        simp only [Option.some.injEq] at hinfo
        rw [← hinfo]
  · intro hn
    have hi := channelInfo.identity_public client calls s hn
    have hp := publicChannelInfo_calls client calls s
    have hcases := channelInfo_cases client calls s
    rw [hi] at hcases
    simp only [hp] at hcases
    refine ⟨hi, ?_⟩
    rcases hcases with ⟨e, _, hc⟩ | ⟨_, hc, _⟩
    · exact ⟨[], by rw [hc], by simp⟩
    · refine ⟨[Call.MessagesSearch (queryLatestMsgID.request
        (publicChannelInfo client calls s).1 (publicChannelInfo client calls s).2.1)],
        by rw [hc]; simp, ?_⟩
      intro c hc1
      rw [List.mem_singleton.mp hc1]
      rfl
  · intro n h
    exact absurd h (by rw [show ParseInt "" = .error .ErrSyntax from rfl]; simp)
  · intro n h
    exact absurd h (by rw [show ParseInt "examplechannel" = .error .ErrSyntax from rfl]; simp)
  · intro n h
    exact absurd h
      (by rw [show ParseInt "9223372036854775808" = .error .ErrRange from rfl]; simp)
  · intro n h
    exact absurd h
      (by rw [show ParseInt "-9223372036854775809" = .error .ErrRange from rfl]; simp)

/-- C1, at concrete inputs: `"123456"` parses and takes the private path,
`"examplechannel"` does not and takes the public path. -/
theorem channelInfo_dispatch_by_format_witness :
    ((-(2 ^ 63 : Int) ≤ 123456 ∧ (123456 : Int) < 2 ^ 63) ∧
      channelInfo.identity exampleClient [] "123456" =
        (123456, privateChannelInfo exampleClient [] 123456) ∧
      (∃ rest, (channelInfo exampleClient [] "123456").2.2 =
          [] ++ Call.ContactsGetContacts 123456 :: rest ∧
        ∀ c ∈ rest, ∃ accessHash,
          c = Call.MessagesSearch (queryLatestMsgID.request 123456 accessHash)) ∧
      ∀ info, (channelInfo exampleClient [] "123456").1 = some info → info.id = 123456) ∧
    (channelInfo.identity exampleClient [] "examplechannel" =
        publicChannelInfo exampleClient [] "examplechannel" ∧
      ∃ rest, (channelInfo exampleClient [] "examplechannel").2.2 =
          [] ++ Call.ContactsResolveUsername "examplechannel" :: rest ∧
        ∀ c ∈ rest, c.isMessagesSearch = true) :=
  ⟨(channelInfo_dispatch_by_format exampleClient [] "123456").1 123456 rfl,
    (channelInfo_dispatch_by_format exampleClient [] "examplechannel").2.1
      (channelInfo_dispatch_by_format exampleClient [] "examplechannel").2.2.2.1⟩

/-- C2, the code at the failing input. The search answers with a page that is
not a channel message page (`*tg.MessagesMessages` holding the message `777`):
`queryLatestMsgID` returns `0` with a `nil` error, and `channelInfo` returns a
result whose `lastMsgID` is `0` with a `nil` error. -/
theorem queryLatestMsgID_other_page_zero_nil :
    queryLatestMsgID (searchClient (.ok (.MessagesMessages [some (.Message 777)]))) [] 42 24 =
      (0, none, [Call.MessagesSearch (queryLatestMsgID.request 42 24)]) ∧
    channelInfo (searchClient (.ok (.MessagesMessages [some (.Message 777)]))) []
        "examplechannel" =
      (some { id := 42, accessHash := 24, lastMsgID := 0 }, none,
        [Call.ContactsResolveUsername "examplechannel",
          Call.MessagesSearch (queryLatestMsgID.request 42 24)]) ∧
    ∃ info,
      (channelInfo (searchClient (.ok (.MessagesMessages [some (.Message 777)]))) []
        "examplechannel").1 = some info ∧
      (channelInfo (searchClient (.ok (.MessagesMessages [some (.Message 777)]))) []
        "examplechannel").2.1 = none ∧
      ¬ info.lastMsgID > 0 := by
  refine ⟨rfl, rfl, { id := 42, accessHash := 24, lastMsgID := 0 }, rfl, rfl, by decide⟩

/-- Error propagation in `channelInfo`. If the identity stage
(`privateChannelInfo` when the reference parses, `publicChannelInfo` otherwise)
returns the error `e`, be it the error of its RPC call or a not-found error,
`channelInfo` returns a `nil` result with exactly `e` and has issued the
identity call only, no message search. If the message-search RPC or
`queryLatestMsgID` returns the error `e`, `channelInfo` returns a `nil` result
with exactly `e`. The outcome is always either a `nil` result with an error or
a result with a `nil` error. This says nothing on what a returned result
holds. -/
theorem channelInfo_errors_propagate (client : Client) (calls : List Call) (s : String) :
    (∀ n e, ParseInt s = .ok n → (privateChannelInfo client calls n).2.1 = some e →
      channelInfo client calls s = (none, some e, calls ++ [Call.ContactsGetContacts n])) ∧
    (∀ e, (∀ n, ParseInt s ≠ .ok n) → (publicChannelInfo client calls s).2.2.1 = some e →
      channelInfo client calls s =
        (none, some e, calls ++ [Call.ContactsResolveUsername s])) ∧
    (∀ n e, ParseInt s = .ok n → client.ContactsGetContacts calls n = .error e →
      channelInfo client calls s = (none, some e, calls ++ [Call.ContactsGetContacts n])) ∧
    (∀ e, (∀ n, ParseInt s ≠ .ok n) → client.ContactsResolveUsername calls s = .error e →
      channelInfo client calls s =
        (none, some e, calls ++ [Call.ContactsResolveUsername s])) ∧
    (∀ channelID accessHash calls1 e,
      channelInfo.identity client calls s = (channelID, accessHash, none, calls1) →
      (queryLatestMsgID client calls1 channelID accessHash).2.1 = some e →
      (channelInfo client calls s).1 = none ∧ (channelInfo client calls s).2.1 = some e) ∧
    (∀ channelID accessHash calls1 e,
      channelInfo.identity client calls s = (channelID, accessHash, none, calls1) →
      client.MessagesSearch calls1 (queryLatestMsgID.request channelID accessHash) = .error e →
      (channelInfo client calls s).1 = none ∧ (channelInfo client calls s).2.1 = some e) ∧
    (((channelInfo client calls s).1 = none ∧ ∃ e, (channelInfo client calls s).2.1 = some e) ∨
      ((∃ info, (channelInfo client calls s).1 = some info) ∧
        (channelInfo client calls s).2.1 = none)) := by
  have hpriv : ∀ n e, ParseInt s = .ok n → (privateChannelInfo client calls n).2.1 = some e →
      channelInfo client calls s = (none, some e, calls ++ [Call.ContactsGetContacts n]) := by
    intro n e hn he
    have hi := channelInfo.identity_private client calls s n hn
    have hp := privateChannelInfo_calls client calls n
    rcases hr : privateChannelInfo client calls n with ⟨accessHash, err, calls1⟩
    rw [hr] at hi he hp
    simp only at he hp
    subst he hp
    exact channelInfo_of_identity_error client calls s n accessHash e _ hi
  have hpub : ∀ e, (∀ n, ParseInt s ≠ .ok n) → (publicChannelInfo client calls s).2.2.1 = some e →
      channelInfo client calls s =
        (none, some e, calls ++ [Call.ContactsResolveUsername s]) := by
    intro e hn he
    have hi := channelInfo.identity_public client calls s hn
    have hp := publicChannelInfo_calls client calls s
    rcases hr : publicChannelInfo client calls s with ⟨channelID, accessHash, err, calls1⟩
    rw [hr] at hi he hp
    simp only at he hp
    subst he hp
    exact channelInfo_of_identity_error client calls s channelID accessHash e _ hi
  have hquery : ∀ channelID accessHash calls1 e,
      channelInfo.identity client calls s = (channelID, accessHash, none, calls1) →
      (queryLatestMsgID client calls1 channelID accessHash).2.1 = some e →
      (channelInfo client calls s).1 = none ∧ (channelInfo client calls s).2.1 = some e := by
    intro channelID accessHash calls1 e hi he
    have hc := channelInfo_of_identity_ok client calls s channelID accessHash calls1 hi
    rcases hr : queryLatestMsgID client calls1 channelID accessHash with ⟨last, qerr, calls2⟩
    rw [hr] at hc he
    simp only at he
    subst he
    simp only at hc
    rw [hc]
    exact ⟨rfl, rfl⟩
  refine ⟨hpriv, hpub, ?_, ?_, hquery, ?_, ?_⟩
  · intro n e hn hrpc
    apply hpriv n e hn
    unfold privateChannelInfo
    rw [hrpc]
  · intro e hn hrpc
    apply hpub e hn
    unfold publicChannelInfo
    rw [hrpc]
  · intro channelID accessHash calls1 e hi hrpc
    apply hquery channelID accessHash calls1 e hi
    unfold queryLatestMsgID
    dsimp only
    rw [hrpc]
  · rcases channelInfo_cases client calls s with
      ⟨e, _, hc⟩ | ⟨_, _, ⟨e, _, hnone, herr⟩ | ⟨_, hsome, herr⟩⟩
    · left; rw [hc]; exact ⟨rfl, e, rfl⟩
    · left; exact ⟨hnone, e, herr⟩
    · right; exact ⟨⟨_, hsome⟩, herr⟩

/-- Error propagation at concrete inputs: a contact that is missing, the handle `"ghost"`
with no chat (the search is never issued), RPC errors of both identity calls,
an empty channel page and an RPC error of the search. -/
theorem channelInfo_errors_propagate_at_inputs :
    channelInfo ghostClient [] "123456" =
      (none, some (errorsNew "couldn't find access hash"),
        [] ++ [Call.ContactsGetContacts 123456]) ∧
    channelInfo ghostClient [] "ghost" =
      (none, some (fmtErrorf "you are not belong to channel: " "ghost"),
        [] ++ [Call.ContactsResolveUsername "ghost"]) ∧
    channelInfo downClient [] "123456" =
      (none, some (.rpc "rpc error: TIMEOUT"), [] ++ [Call.ContactsGetContacts 123456]) ∧
    channelInfo downClient [] "ghost" =
      (none, some (.rpc "rpc error: TIMEOUT"), [] ++ [Call.ContactsResolveUsername "ghost"]) ∧
    ((channelInfo (searchClient (.ok (.MessagesChannelMessages []))) [] "123456").1 = none ∧
      (channelInfo (searchClient (.ok (.MessagesChannelMessages []))) [] "123456").2.1 =
        some (errorsNew "couldn't find last message id")) ∧
    ((channelInfo (searchClient (.error (.rpc "FLOOD_WAIT"))) [] "123456").1 = none ∧
      (channelInfo (searchClient (.error (.rpc "FLOOD_WAIT"))) [] "123456").2.1 =
        some (.rpc "FLOOD_WAIT")) :=
  ⟨(channelInfo_errors_propagate ghostClient [] "123456").1 123456 _ rfl rfl,
    (channelInfo_errors_propagate ghostClient [] "ghost").2.1 _
      (fun n h => by rw [show ParseInt "ghost" = .error .ErrSyntax from rfl] at h; simp at h)
      rfl,
    (channelInfo_errors_propagate downClient [] "123456").2.2.1 123456 _ rfl rfl,
    (channelInfo_errors_propagate downClient [] "ghost").2.2.2.1 _
      (fun n h => by rw [show ParseInt "ghost" = .error .ErrSyntax from rfl] at h; simp at h)
      rfl,
    (channelInfo_errors_propagate (searchClient (.ok (.MessagesChannelMessages []))) []
      "123456").2.2.2.2.1 123456 987 [Call.ContactsGetContacts 123456] _ rfl rfl,
    (channelInfo_errors_propagate (searchClient (.error (.rpc "FLOOD_WAIT"))) []
      "123456").2.2.2.2.2.1 123456 987 [Call.ContactsGetContacts 123456] _ rfl rfl⟩

/-- C3, the code at the failing input. The reference `"123456"` resolves on
the private path to the access hash `987`, and the search answers with a
`*tg.MessagesMessagesNotModified`, which is not a channel message page. The
checkpoint stage has failed to find a message: `queryLatestMsgID` returns the
zero value `0`, but with a `nil` error. `channelInfo` therefore returns, with a
`nil` error, a result whose `id` and `accessHash` are populated and whose
`lastMsgID` is the zero value: a partially populated result. On the sibling
failure, an empty channel message page, it returns a `nil` result with the
not-found error. -/
theorem channelInfo_partial_result_on_other_page :
    queryLatestMsgID (searchClient (.ok (.MessagesMessagesNotModified 1)))
        [Call.ContactsGetContacts 123456] 123456 987 =
      (0, none,
        [Call.ContactsGetContacts 123456,
          Call.MessagesSearch (queryLatestMsgID.request 123456 987)]) ∧
    channelInfo (searchClient (.ok (.MessagesMessagesNotModified 1))) [] "123456" =
      (some { id := 123456, accessHash := 987, lastMsgID := 0 }, none,
        [Call.ContactsGetContacts 123456,
          Call.MessagesSearch (queryLatestMsgID.request 123456 987)]) ∧
    (∃ info,
      (channelInfo (searchClient (.ok (.MessagesMessagesNotModified 1))) [] "123456").1 =
        some info ∧
      (channelInfo (searchClient (.ok (.MessagesMessagesNotModified 1))) [] "123456").2.1 =
        none ∧
      info.id ≠ 0 ∧ info.accessHash ≠ 0 ∧ info.lastMsgID = 0) ∧
    channelInfo (searchClient (.ok (.MessagesChannelMessages []))) [] "123456" =
      (none, some (errorsNew "couldn't find last message id"),
        [Call.ContactsGetContacts 123456,
          Call.MessagesSearch (queryLatestMsgID.request 123456 987)]) := by
  refine ⟨rfl, rfl,
    ⟨{ id := 123456, accessHash := 987, lastMsgID := 0 }, rfl, rfl, by decide, by decide, rfl⟩,
    rfl⟩

/-- C4. `publicChannelInfo` finds the first channel. For every handle `h` and
every successful handle resolution with chat list `cs`: if `cs` holds no entry
of the channel variant (it is empty, or holds other chat kinds only) the result
is a not-found error whose text contains `h`, with zero values; if `cs` is
`pre ++ channel :: post` with no channel in `pre`, the result is the identifier
and access hash of that channel with a `nil` error, whatever `pre` and `post`
hold. -/
theorem publicChannelInfo_first_channel (client : Client) (calls : List Call) (h : String)
    (cs : List ChatClass)
    (hresp : client.ContactsResolveUsername calls h = .ok { Chats := cs }) :
    ((∀ c ∈ cs, c.isChannel = false) →
      ∃ e, publicChannelInfo client calls h =
          (0, 0, some e, calls ++ [Call.ContactsResolveUsername h]) ∧
        e = (if cs = [] then fmtErrorf "you are not belong to channel: " h
          else fmtErrorf "couldn't find channel id and hash for channel: " h) ∧
        occursIn h e.Error) ∧
    (∀ pre ID AccessHash post, cs = pre ++ ChatClass.Channel ID AccessHash :: post →
      (∀ c ∈ pre, c.isChannel = false) →
      publicChannelInfo client calls h =
        (ID, AccessHash, none, calls ++ [Call.ContactsResolveUsername h])) := by
  constructor
  · intro hall
    by_cases hcs : cs = []
    · subst hcs
      refine ⟨fmtErrorf "you are not belong to channel: " h, ?_, by simp, ?_⟩
      · unfold publicChannelInfo
        rw [hresp]
        simp
      · exact occursIn_append _ _
    · refine ⟨fmtErrorf "couldn't find channel id and hash for channel: " h, ?_, by simp [hcs],
        ?_⟩
      · unfold publicChannelInfo
        rw [hresp]
        simp [hcs, publicChannelInfo_loop_none cs hall]
      · exact occursIn_append _ _
  · intro pre ID AccessHash post hcs hpre
    unfold publicChannelInfo
    rw [hresp]
    subst hcs
    simp [publicChannelInfo_loop_append pre _ hpre, publicChannelInfo.loop]

/-- C4, at concrete inputs: a chat list of groups only, and a chat list where a
group precedes the channel `{42, 24}` and another channel follows it. -/
theorem publicChannelInfo_first_channel_witness :
    (∃ e, publicChannelInfo (chatsClient [.Chat 7, .ChannelForbidden 8 9]) [] "ghost" =
        (0, 0, some e, [] ++ [Call.ContactsResolveUsername "ghost"]) ∧
      e = (if [ChatClass.Chat 7, ChatClass.ChannelForbidden 8 9] = []
          then fmtErrorf "you are not belong to channel: " "ghost"
        else fmtErrorf "couldn't find channel id and hash for channel: " "ghost") ∧
      occursIn "ghost" e.Error) ∧
    publicChannelInfo (chatsClient [.Chat 7, .Channel 42 24, .Channel 43 25]) []
        "examplechannel" =
      (42, 24, none, [] ++ [Call.ContactsResolveUsername "examplechannel"]) :=
  ⟨(publicChannelInfo_first_channel (chatsClient [.Chat 7, .ChannelForbidden 8 9]) [] "ghost"
      [.Chat 7, .ChannelForbidden 8 9] rfl).1 (by decide),
    (publicChannelInfo_first_channel (chatsClient [.Chat 7, .Channel 42 24, .Channel 43 25]) []
      "examplechannel" [.Chat 7, .Channel 42 24, .Channel 43 25] rfl).2
      [.Chat 7] 42 24 [.Channel 43 25] rfl (by decide)⟩

/-- C5, refuted as stated. The private path is asked for `123456` and the
contacts list holds the single user `{999, 5}`: the call succeeds with access
hash `5`, and the list holds no user entry `{123456, 5}`. -/
theorem privateChannelInfo_accepts_other_id :
    (contactsClient [.User 999 5]).ContactsGetContacts [] 123456 =
      .ok (.ContactsContacts [.User 999 5]) ∧
    privateChannelInfo (contactsClient [.User 999 5]) [] 123456 =
      (5, none, [Call.ContactsGetContacts 123456]) ∧
    ¬ ∃ u ∈ [UserClass.User 999 5], u = UserClass.User 123456 5 := by
  refine ⟨rfl, rfl, by decide⟩

/-- C5, amended. If `privateChannelInfo` called with `n` returns an access
hash with a `nil` error, the contacts response is a contacts list whose first
entry of the user variant has the returned access hash; the identifier of
that entry is not compared with `n`. -/
theorem privateChannelInfo_success_is_first_user (client : Client) (calls : List Call)
    (n : Int) (hok : (privateChannelInfo client calls n).2.1 = none) :
    ∃ pre ID post,
      client.ContactsGetContacts calls n =
        .ok (.ContactsContacts
          (pre ++ UserClass.User ID (privateChannelInfo client calls n).1 :: post)) ∧
      ∀ u ∈ pre, u.isUser = false := by
  unfold privateChannelInfo at hok ⊢
  split at hok
  · simp at hok
  · rename_i Users hresp
    rw [hresp]
    split at hok
    · rename_i accessHash hloop
      obtain ⟨pre, ID, post, heq, hpre⟩ := privateChannelInfo_loop_some Users accessHash hloop
      refine ⟨pre, ID, post, ?_, hpre⟩
      simp only [hloop, heq]
    · simp at hok
  · simp at hok

/-- C5, amended, at the input of the specification: the contact
`{123456, 987}` asked for by its identifier. -/
theorem privateChannelInfo_success_is_first_user_witness :
    (privateChannelInfo exampleClient [] 123456).2.1 = none ∧
    ∃ pre ID post,
      exampleClient.ContactsGetContacts [] 123456 =
        .ok (.ContactsContacts
          (pre ++ UserClass.User ID (privateChannelInfo exampleClient [] 123456).1 :: post)) ∧
      ∀ u ∈ pre, u.isUser = false :=
  ⟨rfl, privateChannelInfo_success_is_first_user exampleClient [] 123456 rfl⟩

/-- C6, refuted as stated. The contacts list holds the single user
`{123456, 0}`: the private path returns the access hash `0` with a `nil`
error. -/
theorem privateChannelInfo_zero_hash_succeeds :
    privateChannelInfo (contactsClient [.User 123456 0]) [] 123456 =
      (0, none, [Call.ContactsGetContacts 123456]) ∧
    (privateChannelInfo (contactsClient [.User 123456 0]) [] 123456).2.1 = none ∧
    ¬ (privateChannelInfo (contactsClient [.User 123456 0]) [] 123456).1 ≠ 0 := by
  refine ⟨rfl, rfl, by decide⟩

/-- C6, amended. The private path returns the access hash of the entry it
selects, the first entry of the user variant, with a `nil` error whatever that
access hash is, zero included; so a `nil` error comes with a non-zero access
hash exactly when the selected entry's access hash is not zero. -/
theorem privateChannelInfo_returns_selected_hash (client : Client) (calls : List Call)
    (n : Int) (pre post : List UserClass) (ID AccessHash : Int)
    (hresp : client.ContactsGetContacts calls n =
      .ok (.ContactsContacts (pre ++ UserClass.User ID AccessHash :: post)))
    (hpre : ∀ u ∈ pre, u.isUser = false) :
    privateChannelInfo client calls n =
        (AccessHash, none, calls ++ [Call.ContactsGetContacts n]) ∧
      ((privateChannelInfo client calls n).1 ≠ 0 ↔ AccessHash ≠ 0) := by
  have h := privateChannelInfo_of_first_user client calls n pre post ID AccessHash hresp hpre
  rw [h]
  exact ⟨rfl, Iff.rfl⟩

/-- C6, amended, at a concrete input: an empty user entry, then the user
`{123456, 0}`, then another user. -/
theorem privateChannelInfo_returns_selected_hash_witness :
    privateChannelInfo (contactsClient [.UserEmpty 5, .User 123456 0, .User 6 77]) [] 123456 =
        (0, none, [] ++ [Call.ContactsGetContacts 123456]) ∧
      ((privateChannelInfo (contactsClient [.UserEmpty 5, .User 123456 0, .User 6 77]) []
        123456).1 ≠ 0 ↔ (0 : Int) ≠ 0) :=
  privateChannelInfo_returns_selected_hash
    (contactsClient [.UserEmpty 5, .User 123456 0, .User 6 77]) [] 123456
    [.UserEmpty 5] [.User 6 77] 123456 0 rfl (by decide)

/-- C7. `privateChannelInfo` fails when there is no user entry: when the
contacts lookup succeeds with a response that is not a contacts list, or with
a contacts list that is empty or holds no entry of the user variant, the result
is the zero access hash with the not-found error. -/
theorem privateChannelInfo_no_user_entry (client : Client) (calls : List Call) (n : Int)
    (resp : ContactsContactsClass) (hresp : client.ContactsGetContacts calls n = .ok resp)
    (hno : resp = .ContactsContactsNotModified ∨ resp = .ContactsContacts [] ∨
      ∃ users, resp = .ContactsContacts users ∧ ∀ u ∈ users, u.isUser = false) :
    privateChannelInfo client calls n =
      (0, some (errorsNew "couldn't find access hash"),
        calls ++ [Call.ContactsGetContacts n]) := by
  unfold privateChannelInfo
  rw [hresp]
  rcases hno with h | h | ⟨users, h, hall⟩
  · subst h; rfl
  · subst h; rfl
  · subst h
    simp only [privateChannelInfo_loop_none users hall]

/-- C7, at a concrete input: a contacts list holding empty user entries
only. -/
theorem privateChannelInfo_no_user_entry_witness :
    privateChannelInfo (contactsClient [.UserEmpty 1, .UserEmpty 123456]) [] 123456 =
      (0, some (errorsNew "couldn't find access hash"),
        [] ++ [Call.ContactsGetContacts 123456]) :=
  privateChannelInfo_no_user_entry (contactsClient [.UserEmpty 1, .UserEmpty 123456]) []
    123456 (.ContactsContacts [.UserEmpty 1, .UserEmpty 123456]) rfl
    (Or.inr (Or.inr ⟨_, rfl, by decide⟩))

/-- C8. On a channel message page only the first entry that is not `nil`
counts. When the search succeeds with a channel message page `ms`: if `ms` is
`nulls ++ msg :: post` with `nulls` all `nil`, `queryLatestMsgID` returns the
identifier of `msg` when it is positive and the not-found error when it is not,
whatever `post` holds; if `ms` is empty or all `nil` it returns the not-found
error; a page holding one message of positive identifier `k` gives `k`. -/
theorem queryLatestMsgID_first_non_null (client : Client) (calls : List Call)
    (channelID accessHash : Int) (ms : List (Option MessageClass))
    (hresp : client.MessagesSearch calls (queryLatestMsgID.request channelID accessHash) =
      .ok (.MessagesChannelMessages ms)) :
    (∀ nulls msg post, ms = nulls ++ some msg :: post → (∀ x ∈ nulls, x = none) →
      (0 < msg.GetID →
        queryLatestMsgID client calls channelID accessHash =
          (msg.GetID, none,
            calls ++ [Call.MessagesSearch (queryLatestMsgID.request channelID accessHash)])) ∧
      (msg.GetID ≤ 0 →
        queryLatestMsgID client calls channelID accessHash =
          (0, some (errorsNew "couldn't find last message id"),
            calls ++ [Call.MessagesSearch (queryLatestMsgID.request channelID accessHash)]))) ∧
    ((∀ x ∈ ms, x = none) →
      queryLatestMsgID client calls channelID accessHash =
        (0, some (errorsNew "couldn't find last message id"),
          calls ++ [Call.MessagesSearch (queryLatestMsgID.request channelID accessHash)])) ∧
    (∀ msg, ms = [some msg] → 0 < msg.GetID →
      queryLatestMsgID client calls channelID accessHash =
        (msg.GetID, none,
          calls ++ [Call.MessagesSearch (queryLatestMsgID.request channelID accessHash)])) := by
  have hfirst : ∀ nulls msg post, ms = nulls ++ some msg :: post → (∀ x ∈ nulls, x = none) →
      queryLatestMsgID.loop ms (-1) = msg.GetID := by
    intro nulls msg post hms hnulls
    rw [hms, queryLatestMsgID_loop_append nulls _ _ hnulls]
    rfl
  refine ⟨?_, ?_, ?_⟩
  · intro nulls msg post hms hnulls
    have hl := hfirst nulls msg post hms hnulls
    constructor
    · intro hpos
      unfold queryLatestMsgID
      dsimp only
      rw [hresp]
      simp only [hl]
      rw [if_neg (by omega)]
    · intro hle
      unfold queryLatestMsgID
      dsimp only
      rw [hresp]
      simp only [hl]
      rw [if_pos hle]
  · intro hall
    unfold queryLatestMsgID
    dsimp only
    rw [hresp]
    simp only [queryLatestMsgID_loop_all_null ms (-1) hall]
    rfl
  · intro msg hms hpos
    have hl := hfirst [] msg [] (by simpa using hms) (by simp)
    unfold queryLatestMsgID
    dsimp only
    rw [hresp]
    simp only [hl]
    rw [if_neg (by omega)]

/-- C8, at concrete inputs: a first message of identifier `777` followed by
another one; a first message of identifier `0` followed by a positive one; a
page of `nil` entries; the empty page; a page with the sole message `777`. -/
theorem queryLatestMsgID_first_non_null_witness :
    queryLatestMsgID
        (searchClient (.ok (.MessagesChannelMessages [none, some (.Message 777),
          some (.Message 5)]))) [] 42 24 =
      ((MessageClass.Message 777).GetID, none,
        [] ++ [Call.MessagesSearch (queryLatestMsgID.request 42 24)]) ∧
    queryLatestMsgID
        (searchClient (.ok (.MessagesChannelMessages [none, some (.MessageEmpty 0),
          some (.Message 777)]))) [] 42 24 =
      (0, some (errorsNew "couldn't find last message id"),
        [] ++ [Call.MessagesSearch (queryLatestMsgID.request 42 24)]) ∧
    queryLatestMsgID (searchClient (.ok (.MessagesChannelMessages [none, none]))) [] 42 24 =
      (0, some (errorsNew "couldn't find last message id"),
        [] ++ [Call.MessagesSearch (queryLatestMsgID.request 42 24)]) ∧
    queryLatestMsgID (searchClient (.ok (.MessagesChannelMessages []))) [] 42 24 =
      (0, some (errorsNew "couldn't find last message id"),
        [] ++ [Call.MessagesSearch (queryLatestMsgID.request 42 24)]) ∧
    queryLatestMsgID (searchClient (.ok (.MessagesChannelMessages [some (.Message 777)]))) []
        42 24 =
      ((MessageClass.Message 777).GetID, none,
        [] ++ [Call.MessagesSearch (queryLatestMsgID.request 42 24)]) :=
  ⟨((queryLatestMsgID_first_non_null _ [] 42 24
      [none, some (.Message 777), some (.Message 5)] rfl).1
      [none] (.Message 777) [some (.Message 5)] rfl (by decide)).1 (by decide),
    ((queryLatestMsgID_first_non_null _ [] 42 24
      [none, some (.MessageEmpty 0), some (.Message 777)] rfl).1
      [none] (.MessageEmpty 0) [some (.Message 777)] rfl (by decide)).2 (by decide),
    (queryLatestMsgID_first_non_null _ [] 42 24 [none, none] rfl).2.1 (by decide),
    (queryLatestMsgID_first_non_null _ [] 42 24 [] rfl).2.1 (by decide),
    (queryLatestMsgID_first_non_null _ [] 42 24 [some (.Message 777)] rfl).2.2
      (.Message 777) rfl (by decide)⟩

/-- C9, refuted as stated. Asked for `123456` with no contact, the private
path fails with the text `couldn't find access hash`, which does not contain
`123456` and is the same as for the identifier `7`; asked for the channel
`42` with access hash `24` on an empty page, the checkpoint query fails with
the text `couldn't find last message id`, which contains neither. -/
theorem notFound_error_omits_identifier :
    (privateChannelInfo ghostClient [] 123456).2.1 =
      some (GoError.text "couldn't find access hash") ∧
    ¬ occursIn "123456" (GoError.text "couldn't find access hash").Error ∧
    (privateChannelInfo ghostClient [] 7).2.1 = (privateChannelInfo ghostClient [] 123456).2.1 ∧
    (queryLatestMsgID ghostClient [] 42 24).2.1 =
      some (GoError.text "couldn't find last message id") ∧
    ¬ occursIn "42" (GoError.text "couldn't find last message id").Error ∧
    ¬ occursIn "24" (GoError.text "couldn't find last message id").Error := by
  refine ⟨rfl, by decide, rfl, rfl, by decide, by decide⟩

/-- C9, amended. When the RPC call itself succeeded: an error of
`publicChannelInfo` has a text that contains the handle queried; an error of
`privateChannelInfo` is the fixed text `couldn't find access hash` and an error
of `queryLatestMsgID` is the fixed text `couldn't find last message id`,
neither of which carries the identifier queried. -/
theorem notFound_error_text (client : Client) (calls : List Call) :
    (∀ h resp e, client.ContactsResolveUsername calls h = .ok resp →
      (publicChannelInfo client calls h).2.2.1 = some e → occursIn h e.Error) ∧
    (∀ n resp e, client.ContactsGetContacts calls n = .ok resp →
      (privateChannelInfo client calls n).2.1 = some e →
      e = errorsNew "couldn't find access hash") ∧
    (∀ channelID accessHash resp e,
      client.MessagesSearch calls (queryLatestMsgID.request channelID accessHash) = .ok resp →
      (queryLatestMsgID client calls channelID accessHash).2.1 = some e →
      e = errorsNew "couldn't find last message id") := by
  refine ⟨?_, ?_, ?_⟩
  · intro h resp e hresp he
    unfold publicChannelInfo at he
    rw [hresp] at he
    simp only at he
    split at he
    · simp only [Option.some.injEq] at he
      subst he
      exact occursIn_append _ _
    · split at he
      · simp at he
      · simp only [Option.some.injEq] at he
        subst he
        exact occursIn_append _ _
  · intro n resp e hresp he
    unfold privateChannelInfo at he
    rw [hresp] at he
    cases resp with
    | ContactsContactsNotModified =>
      simp only [Option.some.injEq] at he
      exact he.symm
    | ContactsContacts Users =>
      simp only at he
      split at he
      · simp at he
      · simp only [Option.some.injEq] at he
        exact he.symm
  · intro channelID accessHash resp e hresp he
    unfold queryLatestMsgID at he
    dsimp only at he
    rw [hresp] at he
    cases resp with
    | MessagesChannelMessages Messages =>
      simp only at he
      split at he
      · simp only [Option.some.injEq] at he
        exact he.symm
      · simp at he
    | MessagesMessages Messages => simp at he
    | MessagesMessagesSlice Messages => simp at he
    | MessagesMessagesNotModified Count => simp at he

/-- C9, amended, at concrete inputs: the handle `"ghost"` with no chat, the
identifier `123456` with no contact, the channel `{42, 24}` with an empty
page. -/
theorem notFound_error_text_witness :
    ((publicChannelInfo ghostClient [] "ghost").2.2.1 =
        some (fmtErrorf "you are not belong to channel: " "ghost") ∧
      occursIn "ghost" (fmtErrorf "you are not belong to channel: " "ghost").Error) ∧
    ((privateChannelInfo ghostClient [] 123456).2.1 =
        some (GoError.text "couldn't find access hash") ∧
      GoError.text "couldn't find access hash" = errorsNew "couldn't find access hash") ∧
    ((queryLatestMsgID ghostClient [] 42 24).2.1 =
        some (GoError.text "couldn't find last message id") ∧
      GoError.text "couldn't find last message id" =
        errorsNew "couldn't find last message id") :=
  ⟨⟨rfl, (notFound_error_text ghostClient []).1 "ghost" { Chats := [] }
      (fmtErrorf "you are not belong to channel: " "ghost") rfl rfl⟩,
    ⟨rfl, (notFound_error_text ghostClient []).2.1 123456 (.ContactsContacts [])
      (GoError.text "couldn't find access hash") rfl rfl⟩,
    ⟨rfl, (notFound_error_text ghostClient []).2.2 42 24 (.MessagesChannelMessages [])
      (GoError.text "couldn't find last message id") rfl rfl⟩⟩

/-- C10. A successful `channelInfo` is the composition of its stages with one
identity. When it returns the result `info` with a `nil` error: the identity
stage ended without an error and produced `info.id` and `info.accessHash` (on
the private path `info.id` is the parsed integer and `info.accessHash` the
result of `privateChannelInfo`; on the public path both are those of the first
channel of the chat list); after the identity call exactly one message search
was issued, for the channel peer of `info.id` and `info.accessHash`, with the
empty filter, the empty query text, offset identifier `-1` and limit `1`; and
`info.lastMsgID` is what `queryLatestMsgID` returned for that request. -/
theorem channelInfo_success_is_composition (client : Client) (calls : List Call) (s : String)
    (info : tgChannelInfo) (calls2 : List Call)
    (hok : channelInfo client calls s = (some info, none, calls2)) :
    channelInfo.identity client calls s =
      (info.id, info.accessHash, none, (channelInfo.identity client calls s).2.2.2) ∧
    (∀ n, ParseInt s = .ok n →
      info.id = n ∧
      privateChannelInfo client calls n =
        (info.accessHash, none, calls ++ [Call.ContactsGetContacts n])) ∧
    ((∀ n, ParseInt s ≠ .ok n) →
      publicChannelInfo client calls s =
        (info.id, info.accessHash, none, calls ++ [Call.ContactsResolveUsername s]) ∧
      ∃ pre post,
        client.ContactsResolveUsername calls s =
          .ok (ContactsResolvedPeer.mk
            (pre ++ ChatClass.Channel info.id info.accessHash :: post)) ∧
        ∀ c ∈ pre, c.isChannel = false) ∧
    (∃ c, c.isMessagesSearch = false ∧
      (channelInfo.identity client calls s).2.2.2 = calls ++ [c] ∧
      calls2 = calls ++ [c, Call.MessagesSearch
        { Peer := .InputPeerChannel info.id info.accessHash
          Filter := .InputMessagesFilterEmpty
          Q := ""
          OffsetID := -1
          Limit := 1 }]) ∧
    queryLatestMsgID client (channelInfo.identity client calls s).2.2.2 info.id
        info.accessHash =
      (info.lastMsgID, none, calls2) := by
  have hid : channelInfo.identity client calls s =
      (info.id, info.accessHash, none, (channelInfo.identity client calls s).2.2.2) ∧
      calls2 = (channelInfo.identity client calls s).2.2.2 ++
        [Call.MessagesSearch (queryLatestMsgID.request info.id info.accessHash)] ∧
      queryLatestMsgID client (channelInfo.identity client calls s).2.2.2 info.id
        info.accessHash = (info.lastMsgID, none, calls2) := by
    rcases channelInfo_cases client calls s with
      ⟨e, _, hc⟩ | ⟨hnone, htrace, ⟨e, _, hn, _⟩ | ⟨hq, hsome, _⟩⟩
    · rw [hc] at hok; simp at hok
    · rw [hok] at hn; simp at hn
    · rw [hok] at hsome htrace
      simp only [Option.some.injEq] at hsome
      simp only at htrace
      have hcalls := queryLatestMsgID_calls client (channelInfo.identity client calls s).2.2.2
        (channelInfo.identity client calls s).1 (channelInfo.identity client calls s).2.1
      subst hsome
      refine ⟨?_, htrace, ?_⟩
      · ext <;> simp [hnone]
      · ext <;> simp [hq, hcalls, htrace]
  obtain ⟨hident, htrace, hquery⟩ := hid
  obtain ⟨c, hc, hcalls⟩ := channelInfo.identity_calls client calls s
  refine ⟨hident, ?_, ?_, ⟨c, hc, hcalls, ?_⟩, hquery⟩
  · intro n hn
    have hi := channelInfo.identity_private client calls s n hn
    rw [hi] at hident
    have h1 : n = info.id := congrArg Prod.fst hident
    have h2 : (privateChannelInfo client calls n).1 = info.accessHash :=
      congrArg (fun p => p.2.1) hident
    have h3 : (privateChannelInfo client calls n).2.1 = none :=
      congrArg (fun p => p.2.2.1) hident
    refine ⟨h1.symm, ?_⟩
    have hp := privateChannelInfo_calls client calls n
    ext <;> simp [h2, h3, hp]
  · intro hn
    have hi := channelInfo.identity_public client calls s hn
    rw [hi] at hident
    have h1 : (publicChannelInfo client calls s).1 = info.id := congrArg Prod.fst hident
    have h2 : (publicChannelInfo client calls s).2.1 = info.accessHash :=
      congrArg (fun p => p.2.1) hident
    have h3 : (publicChannelInfo client calls s).2.2.1 = none :=
      congrArg (fun p => p.2.2.1) hident
    have hp := publicChannelInfo_calls client calls s
    have hpub : publicChannelInfo client calls s =
        (info.id, info.accessHash, none, calls ++ [Call.ContactsResolveUsername s]) := by
      ext <;> simp [h1, h2, h3, hp]
    refine ⟨hpub, ?_⟩
    have hex := publicChannelInfo_of_ok client calls s h3
    rw [h1, h2] at hex
    exact hex
  · rw [htrace, hcalls]
    simp [queryLatestMsgID.request]

/-- C10, at the input of the specification: the handle `"examplechannel"`
resolving to the channel `{42, 24}` and a page with one message of identifier
`777` give `{42, 24, 777}`. -/
theorem channelInfo_success_is_composition_witness :
    channelInfo exampleClient [] "examplechannel" =
      (some { id := 42, accessHash := 24, lastMsgID := 777 }, none,
        [Call.ContactsResolveUsername "examplechannel",
          Call.MessagesSearch (queryLatestMsgID.request 42 24)]) ∧
    queryLatestMsgID exampleClient
        (channelInfo.identity exampleClient [] "examplechannel").2.2.2 42 24 =
      (777, none,
        [Call.ContactsResolveUsername "examplechannel",
          Call.MessagesSearch (queryLatestMsgID.request 42 24)]) :=
  ⟨rfl, (channelInfo_success_is_composition exampleClient [] "examplechannel"
    { id := 42, accessHash := 24, lastMsgID := 777 }
    [Call.ContactsResolveUsername "examplechannel",
      Call.MessagesSearch (queryLatestMsgID.request 42 24)] rfl).2.2.2.2⟩

end Telegram
